import Mathlib

/-!
# Verification of the NES emulator core against its specification

This file gives a shallow embedding, in Lean 4, of the parts of the
`nes-emulator` Rust source that the specification claims speak about, and
settles each claim against that embedding.

Modelling conventions:
* Machine integers (`u8`, `u16`, ...) are modelled as `Nat`, with an explicit
  `% 256` / `% 65536` (or a bitmask) exactly where the Rust code wraps or
  where a narrowing type conversion occurs.
* The CPU reads memory through `Cpu::read(&self, u16) -> u8` (a non-mutating
  borrow, `src/cpu/mod.rs`), so CPU-level memory is modelled as a pure
  function `mem : Nat → Nat`; the `% 256` in `Cpu.read` models the `u8`
  return type of `Bus::read`.
* Rust `struct`s become Lean `structure`s with the same field names;
  methods taking `&mut self` become functions `State → State`
  (or `State → α × State` when they also return a value).
* `panic!` / `unimplemented!` / out-of-bounds indexing become `Option`
  (`none` = the Rust program panics).
* Floating point (`f32`) arithmetic in the APU mixer is modelled over `ℚ`;
  the literals `95.88` etc. denote the corresponding exact decimal rationals.
* Bitflag sets (`StatusFlags`, `PpuStatusRegister`, ...) are modelled as the
  underlying `Nat` of their `bits()` value.
-/

namespace Nes

/-! ## CPU data model (`src/cpu/mod.rs`)

`StatusFlags` bit values, from the `bitflags!` block. -/

def CARRY : Nat := 0x01
def ZERO : Nat := 0x02
def INTERRUPT_DISABLE : Nat := 0x04
def DECIMAL_MODE : Nat := 0x08
def BREAK_COMMAND : Nat := 0x10
def UNUSED : Nat := 0x20
def OVERFLOW : Nat := 0x40
def NEGATIVE : Nat := 0x80

def STACK : Nat := 0x0100
def STACK_RESET : Nat := 0xFD

/-- The CPU register file (`struct Cpu`).  The bus behind
`Cpu::read(&self, ..)` is abstracted as the pure byte function `mem`. -/
structure Cpu where
  pc : Nat
  sp : Nat
  a : Nat
  x : Nat
  y : Nat
  status : Nat
  mem : Nat → Nat
  deriving Inhabited

/-- `Cpu::read`: the `% 256` models the `u8` value returned by the bus. -/
def Cpu.read (c : Cpu) (address : Nat) : Nat :=
  c.mem address % 256

/-- `Cpu::read_u16` (little endian pair of reads). -/
def Cpu.read_u16 (c : Cpu) (address : Nat) : Nat :=
  let low_byte := c.read address
  let high_byte := c.read (address + 1)
  (high_byte <<< 8) ||| low_byte

/-! ## Addressing modes (`src/cpu/addressing.rs`) -/

inductive AddressingMode where
  | Implied
  | Accumulator
  | Immediate
  | ZeroPage
  | ZeroPageX
  | ZeroPageY
  | Relative
  | Absolute
  | AbsoluteX
  | AbsoluteY
  | Indirect
  | IndirectX
  | IndirectY
  deriving DecidableEq

/-- `Cpu::get_operand_address`, translated arm by arm.  `wrapping_add` on
`u8` is `(· + ·) % 256`, on `u16` it is `(· + ·) % 65536`; `as i8` sign
extension in the `Relative` arm becomes the explicit `+ 0xFF00` branch used
by `offset as i8 as u16`. -/
def Cpu.get_operand_address (c : Cpu) (mode : AddressingMode) (pc : Nat) :
    Nat × Bool :=
  match mode with
  | .Implied | .Accumulator => (0, false)
  | .Immediate => (pc, false)
  | .ZeroPage =>
      let address := c.read pc
      (address, false)
  | .ZeroPageX =>
      let base := c.read pc
      let address := (base + c.x) % 256
      (address, false)
  | .ZeroPageY =>
      -- NOTE: the source adds `self.x` here (src/cpu/addressing.rs:39),
      -- even though its own comment says "+ Y register".
      let base := c.read pc
      let address := (base + c.x) % 256
      (address, false)
  | .Relative =>
      let offsetByte := c.read pc
      let offset_u16 := if 128 ≤ offsetByte then offsetByte + 0xFF00 else offsetByte
      let address := (c.pc + offset_u16) % 65536
      (address, decide ((c.pc &&& 0xFF00) ≠ (address &&& 0xFF00)))
  | .Absolute =>
      let address := c.read_u16 pc
      (address, false)
  | .AbsoluteX =>
      let base := c.read_u16 pc
      let address := (base + c.x) % 65536
      (address, decide ((base &&& 0xFF00) ≠ (address &&& 0xFF00)))
  | .AbsoluteY =>
      let base := c.read_u16 pc
      let address := (base + c.y) % 65536
      (address, decide ((base &&& 0xFF00) ≠ (address &&& 0xFF00)))
  | .Indirect =>
      let pointer := c.read_u16 pc
      let low_byte := c.read pointer
      let high_byte :=
        if pointer &&& 0x00FF = 0x00FF then c.read (pointer &&& 0xFF00)
        else c.read (pointer + 1)
      let address := (high_byte <<< 8) ||| low_byte
      (address, false)
  | .IndirectX =>
      let base := c.read pc
      let pointer := (base + c.x) % 256
      let low_byte := c.read pointer
      let high_byte := c.read ((pointer + 1) % 256)
      let address := (high_byte <<< 8) ||| low_byte
      (address, false)
  | .IndirectY =>
      let pointer := c.read pc
      let low_byte := c.read pointer
      let high_byte := c.read ((pointer + 1) &&& 0xFF)
      let base := (high_byte <<< 8) ||| low_byte
      let address := (base + c.y) % 65536
      (address, decide ((base &&& 0xFF00) ≠ (address &&& 0xFF00)))

/-! ## Stack and status instructions (`src/cpu/mod.rs`, `src/cpu/instructions.rs`) -/

/-- `Cpu::stack_pop`: `sp` is a wrapping `u8`. -/
def Cpu.stack_pop (c : Cpu) : Nat × Cpu :=
  let sp' := (c.sp + 1) % 256
  (c.read (STACK + sp'), { c with sp := sp' })

/-- `Cpu::stack_pop_u16`. -/
def Cpu.stack_pop_u16 (c : Cpu) : Nat × Cpu :=
  let (low_byte, c1) := c.stack_pop
  let (high_byte, c2) := c1.stack_pop
  ((high_byte <<< 8) ||| low_byte, c2)

/-- `Cpu::plp` (src/cpu/instructions.rs:1315): pulls P and removes
`BREAK_COMMAND`; `StatusFlags::from_bits_truncate` is the identity because
all eight bits are defined flags.  Note that `UNUSED` is *not* forced. -/
def Cpu.plp (c : Cpu) : Cpu :=
  let (v, c1) := c.stack_pop
  { c1 with status := v &&& 0xEF }

/-- `Cpu::rti` (src/cpu/instructions.rs:1608): pulls P masking
`BREAK_COMMAND` (`& 0xEF`) and forcing `UNUSED`, then pulls PC. -/
def Cpu.rti (c : Cpu) : Cpu :=
  let (v, c1) := c.stack_pop
  let c2 := { c1 with status := (v &&& 0xEF) ||| UNUSED }
  let (pc', c3) := c2.stack_pop_u16
  { c3 with pc := pc' }

/-! ## Controller (`src/joypad.rs`)

`button_states` is the `bits()` value of the `JoypadButton` bitflags;
button A is bit 0. -/

structure Joypad where
  strobe : Bool
  button_index : Nat
  button_states : Nat
  deriving DecidableEq

/-- `Joypad::new`. -/
def Joypad.new : Joypad :=
  { strobe := false, button_index := 0, button_states := 0 }

/-- `Joypad::write`. -/
def Joypad.write (j : Joypad) (value : Nat) : Joypad :=
  let strobe := value &&& 1 = 1
  if strobe then { j with strobe := strobe, button_index := 0 }
  else { j with strobe := strobe }

/-- `Joypad::read`: returns the bit at `button_index` and advances the index
only when the strobe is clear. -/
def Joypad.read (j : Joypad) : Nat × Joypad :=
  if 7 < j.button_index then (1, j)
  else
    let response := (j.button_states &&& (1 <<< j.button_index)) >>> j.button_index
    if ¬ j.strobe ∧ j.button_index ≤ 7 then
      (response, { j with button_index := j.button_index + 1 })
    else (response, j)

/-- Iterate `Joypad.read`, keeping the final state. -/
def Joypad.readN (j : Joypad) : Nat → Joypad
  | 0 => j
  | n + 1 => (j.read.2).readN n

/-! ## APU envelope (`src/apu/envelope.rs`) -/

structure Envelope where
  start : Bool
  decay_level : Nat
  divider : Nat
  constant_volume : Bool
  constant_volume_value : Nat
  deriving DecidableEq

def Envelope.new : Envelope :=
  { start := false, decay_level := 0, divider := 0,
    constant_volume := false, constant_volume_value := 0 }

/-- `Envelope::clock`. -/
def Envelope.clock (e : Envelope) (length_counter_halt constant_volume : Bool)
    (volume : Nat) : Envelope :=
  let e := { e with constant_volume := constant_volume,
                    constant_volume_value := volume }
  if e.start then
    { e with start := false, decay_level := 15, divider := volume }
  else if 0 < e.divider then
    { e with divider := e.divider - 1 }
  else
    let e := { e with divider := volume }
    if 0 < e.decay_level then { e with decay_level := e.decay_level - 1 }
    else if length_counter_halt then { e with decay_level := 15 }
    else e

/-- `Envelope::get_volume`. -/
def Envelope.get_volume (e : Envelope) : Nat :=
  if e.constant_volume then e.constant_volume_value else e.decay_level

/-! ## APU noise channel (`src/apu/noise_channel.rs`) -/

def NOISE_PERIOD_TABLE : List Nat :=
  [4, 8, 16, 32, 64, 96, 128, 160, 202, 254, 380, 508, 762, 1016, 2034, 4068]

structure NoiseChannel where
  length_counter_halt : Bool
  constant_volume : Bool
  volume : Nat
  mode : Bool
  period_index : Nat
  timer_period : Nat
  timer : Nat
  length_counter : Nat
  enabled : Bool
  shift_register : Nat
  envelope : Envelope
  deriving DecidableEq

/-- `NoiseChannel::new`: the LFSR (`shift_register`) starts at 1. -/
def NoiseChannel.new : NoiseChannel :=
  { length_counter_halt := false, constant_volume := false, volume := 0,
    mode := false, period_index := 0, timer_period := 0, timer := 0,
    shift_register := 1, enabled := false, length_counter := 0,
    envelope := Envelope.new }

/-- `NoiseChannel::set_enabled`. -/
def NoiseChannel.set_enabled (ch : NoiseChannel) (enabled : Bool) : NoiseChannel :=
  let ch := { ch with enabled := enabled }
  if ¬ ch.enabled then { ch with length_counter := 0 } else ch

/-- `NoiseChannel::write_control` ($400C). -/
def NoiseChannel.write_control (ch : NoiseChannel) (value : Nat) : NoiseChannel :=
  { ch with length_counter_halt := value &&& 0x20 ≠ 0,
            constant_volume := value &&& 0x10 ≠ 0,
            volume := value &&& 0x0F }

/-- `NoiseChannel::write_period` ($400E). -/
def NoiseChannel.write_period (ch : NoiseChannel) (value : Nat) : NoiseChannel :=
  { ch with mode := value &&& 0x80 ≠ 0,
            period_index := value &&& 0x0F,
            timer_period := NOISE_PERIOD_TABLE.getD (value &&& 0x0F) 0 }

/-- `NoiseChannel::clock_lfsr`: right shift with the XOR of bit 0 and bit 1
(bit 6 in short-period mode) fed into bit 14. -/
def NoiseChannel.clock_lfsr (ch : NoiseChannel) : NoiseChannel :=
  let feedback_bit := if ch.mode then 6 else 1
  let feedback := (ch.shift_register &&& 1) ^^^ ((ch.shift_register >>> feedback_bit) &&& 1)
  { ch with shift_register := (ch.shift_register >>> 1) ||| (feedback <<< 14) }

/-- `NoiseChannel::clock_timer`. -/
def NoiseChannel.clock_timer (ch : NoiseChannel) : NoiseChannel :=
  if ch.timer = 0 then ({ ch with timer := ch.timer_period }).clock_lfsr
  else { ch with timer := ch.timer - 1 }

/-- `NoiseChannel::clock_envelope`. -/
def NoiseChannel.clock_envelope (ch : NoiseChannel) : NoiseChannel :=
  { ch with envelope := ch.envelope.clock ch.length_counter_halt ch.constant_volume ch.volume }

/-- `NoiseChannel::clock_length_counter`. -/
def NoiseChannel.clock_length_counter (ch : NoiseChannel) : NoiseChannel :=
  if ¬ ch.length_counter_halt ∧ 0 < ch.length_counter then
    { ch with length_counter := ch.length_counter - 1 }
  else ch

/-! ## APU frame counter (`src/apu/frame_counter.rs`) -/

inductive FrameCounterMode where
  | FourStep
  | FiveStep
  deriving DecidableEq

structure ClockSignals where
  clock_envelopes : Bool
  clock_length : Bool
  irq : Bool
  deriving DecidableEq

def ClockSignals.default : ClockSignals :=
  { clock_envelopes := false, clock_length := false, irq := false }

structure FrameCounter where
  mode : FrameCounterMode
  cycle_counter : Nat
  irq_inhibit : Bool
  irq_flag : Bool
  write_delay_counter : Nat
  pending_write : Option Nat
  deriving DecidableEq

/-- `FrameCounter::default`. -/
def FrameCounter.default : FrameCounter :=
  { mode := .FourStep, cycle_counter := 0, irq_inhibit := false,
    irq_flag := false, write_delay_counter := 0, pending_write := none }

/-- `FrameCounter::write`: the pending byte is latched with a fixed delay
counter of 4, independent of any cycle parity. -/
def FrameCounter.write (fc : FrameCounter) (value : Nat) : FrameCounter :=
  { fc with pending_write := some value, write_delay_counter := 4 }

/-- `FrameCounter::clock_four_step` (the `match self.cycle_counter` body). -/
def FrameCounter.clock_four_step (fc : FrameCounter) (signals : ClockSignals) :
    ClockSignals × FrameCounter :=
  if fc.cycle_counter = 7457 then
    ({ signals with clock_envelopes := true }, fc)
  else if fc.cycle_counter = 14913 then
    ({ signals with clock_envelopes := true, clock_length := true }, fc)
  else if fc.cycle_counter = 22371 then
    ({ signals with clock_envelopes := true }, fc)
  else if fc.cycle_counter = 29828 then
    (signals, if ¬ fc.irq_inhibit then { fc with irq_flag := true } else fc)
  else if fc.cycle_counter = 29829 then
    ({ signals with clock_envelopes := true, clock_length := true },
     if ¬ fc.irq_inhibit then { fc with irq_flag := true } else fc)
  else if fc.cycle_counter = 29830 then
    (signals, { fc with cycle_counter := 0 })
  else (signals, fc)

/-- `FrameCounter::clock_five_step`. -/
def FrameCounter.clock_five_step (fc : FrameCounter) (signals : ClockSignals) :
    ClockSignals × FrameCounter :=
  if fc.cycle_counter = 7457 then
    ({ signals with clock_envelopes := true }, fc)
  else if fc.cycle_counter = 14913 then
    ({ signals with clock_envelopes := true, clock_length := true }, fc)
  else if fc.cycle_counter = 22371 then
    ({ signals with clock_envelopes := true }, fc)
  else if fc.cycle_counter = 37281 then
    ({ signals with clock_envelopes := true, clock_length := true }, fc)
  else if fc.cycle_counter = 37282 then
    (signals, { fc with cycle_counter := 0 })
  else (signals, fc)

/-- `FrameCounter::clock`, without the debug `println!` (console output
only).  Returns the emitted `ClockSignals` with the new state. -/
def FrameCounter.clock (fc : FrameCounter) : ClockSignals × FrameCounter :=
  let signals := ClockSignals.default
  let (signals, fc) :=
    if 0 < fc.write_delay_counter then
      let fc := { fc with write_delay_counter := fc.write_delay_counter - 1 }
      if fc.write_delay_counter = 0 then
        match fc.pending_write with
        | some value =>
            let new_mode : FrameCounterMode :=
              if value &&& 0x80 ≠ 0 then .FiveStep else .FourStep
            let fc := { fc with irq_inhibit := value &&& 0x40 ≠ 0 }
            let fc := if fc.irq_inhibit then { fc with irq_flag := false } else fc
            let fc := { fc with cycle_counter := 0, mode := new_mode,
                                pending_write := none }
            -- `if new_mode == FrameCounterMode::FiveStep { signals.… = true }`
            let signals :=
              if new_mode = .FiveStep then
                { signals with clock_envelopes := true, clock_length := true }
              else signals
            (signals, fc)
        | none => (signals, fc)
      else (signals, fc)
    else (signals, fc)
  let fc := { fc with cycle_counter := fc.cycle_counter + 1 }
  let (signals, fc) :=
    match fc.mode with
    | .FourStep => fc.clock_four_step signals
    | .FiveStep => fc.clock_five_step signals
  let signals := { signals with irq := fc.irq_flag ∧ ¬ fc.irq_inhibit }
  (signals, fc)

/-- Iterate `FrameCounter.clock`, keeping the final state. -/
def FrameCounter.clockN (fc : FrameCounter) : Nat → FrameCounter
  | 0 => fc
  | n + 1 => (fc.clock.2).clockN n

/-! ## APU pulse channel (`src/apu/pulse_channel.rs`) -/

/-- The shared 32-entry `LENGTH_TABLE` (identical in `pulse_channel.rs` and
`apu/mod.rs`). -/
def LENGTH_TABLE : List Nat :=
  [10, 254, 20, 2, 40, 4, 80, 6, 160, 8, 60, 10, 14, 12, 26, 14,
   12, 16, 24, 18, 48, 20, 96, 22, 192, 24, 72, 26, 16, 28, 32, 30]

structure SweepUnit where
  divider : Nat
  reload : Bool
  muting : Bool
  period_update : Option Nat
  deriving DecidableEq

def SweepUnit.new : SweepUnit :=
  { divider := 0, reload := false, muting := false, period_update := none }

/-- `SweepUnit::clock`. -/
def SweepUnit.clock (s : SweepUnit) (enabled : Bool) (period timer_period target_period : Nat) :
    SweepUnit :=
  let s := { s with period_update := none }
  let s := { s with muting := timer_period < 8 ∨ 0x7FF < target_period }
  let s :=
    if s.divider = 0 ∧ enabled ∧ ¬ s.muting then
      { s with period_update := some target_period }
    else s
  if s.divider = 0 ∨ s.reload then { s with divider := period, reload := false }
  else { s with divider := s.divider - 1 }

structure PulseChannel where
  duty_cycle : Nat
  length_counter_halt : Bool
  constant_volume : Bool
  volume : Nat
  sweep_enabled : Bool
  sweep_period : Nat
  sweep_negate : Bool
  sweep_shift : Nat
  timer_period : Nat
  timer : Nat
  length_counter : Nat
  enabled : Bool
  duty_position : Nat
  envelope : Envelope
  sweep_unit : SweepUnit
  deriving DecidableEq

def PulseChannel.new : PulseChannel :=
  { duty_cycle := 0, length_counter_halt := false, constant_volume := false,
    volume := 0, sweep_enabled := false, sweep_period := 0,
    sweep_negate := false, sweep_shift := 0, timer := 0, timer_period := 0,
    length_counter := 0, enabled := false, duty_position := 0,
    envelope := Envelope.new, sweep_unit := SweepUnit.new }

/-- `PulseChannel::set_enabled`: clearing the bit zeroes the length counter. -/
def PulseChannel.set_enabled (ch : PulseChannel) (enabled : Bool) : PulseChannel :=
  let ch := { ch with enabled := enabled }
  if ¬ ch.enabled then { ch with length_counter := 0 } else ch

/-- `PulseChannel::write_control` ($4000/$4004). -/
def PulseChannel.write_control (ch : PulseChannel) (value : Nat) : PulseChannel :=
  { ch with duty_cycle := (value >>> 6) &&& 0x03,
            length_counter_halt := value &&& 0x20 ≠ 0,
            constant_volume := value &&& 0x10 ≠ 0,
            volume := value &&& 0x0F }

/-- `PulseChannel::write_sweep` ($4001/$4005). -/
def PulseChannel.write_sweep (ch : PulseChannel) (value : Nat) : PulseChannel :=
  { ch with sweep_enabled := value &&& 0x80 ≠ 0,
            sweep_period := (value >>> 4) &&& 0x07,
            sweep_negate := value &&& 0x08 ≠ 0,
            sweep_shift := value &&& 0x07,
            sweep_unit := { ch.sweep_unit with reload := true } }

/-- `PulseChannel::write_timer_low` ($4002/$4006). -/
def PulseChannel.write_timer_low (ch : PulseChannel) (value : Nat) : PulseChannel :=
  { ch with timer_period := (ch.timer_period &&& 0x0700) ||| (value % 256) }

/-- `PulseChannel::write_timer_high` ($4003/$4007): loads the length counter
from `LENGTH_TABLE` *without* checking `enabled` (unlike the triangle and
noise channels). -/
def PulseChannel.write_timer_high (ch : PulseChannel) (value : Nat) : PulseChannel :=
  let length_index := (value >>> 3) &&& 0x1F
  { ch with length_counter := LENGTH_TABLE.getD length_index 0,
            timer_period := (ch.timer_period &&& 0x00FF) ||| (((value &&& 0x07) <<< 8) % 65536),
            duty_position := 0,
            envelope := { ch.envelope with start := true } }

/-- `PulseChannel::clock_length_counter`. -/
def PulseChannel.clock_length_counter (ch : PulseChannel) : PulseChannel :=
  if ¬ ch.length_counter_halt ∧ 0 < ch.length_counter then
    { ch with length_counter := ch.length_counter - 1 }
  else ch

/-! ## APU triangle channel (`src/apu/triangle_channel.rs`) -/

structure TriangleChannel where
  counter_halt : Bool
  linear_reload : Nat
  linear_counter : Nat
  linear_reload_flag : Bool
  timer_period : Nat
  timer : Nat
  length_counter : Nat
  enabled : Bool
  sequence_position : Nat
  deriving DecidableEq

def TriangleChannel.new : TriangleChannel :=
  { counter_halt := false, linear_reload := 0, linear_counter := 0,
    linear_reload_flag := false, timer_period := 0, timer := 0,
    length_counter := 0, enabled := false, sequence_position := 0 }

/-- `TriangleChannel::set_enabled`. -/
def TriangleChannel.set_enabled (ch : TriangleChannel) (enabled : Bool) : TriangleChannel :=
  let ch := { ch with enabled := enabled }
  if ¬ ch.enabled then { ch with length_counter := 0 } else ch

/-- `TriangleChannel::write_control` ($4008). -/
def TriangleChannel.write_control (ch : TriangleChannel) (value : Nat) : TriangleChannel :=
  { ch with counter_halt := value &&& 0x80 ≠ 0, linear_reload := value &&& 0x7F }

/-- `TriangleChannel::write_timer_low` ($400A). -/
def TriangleChannel.write_timer_low (ch : TriangleChannel) (value : Nat) : TriangleChannel :=
  { ch with timer_period := (ch.timer_period &&& 0x0700) ||| (value % 256) }

/-- `TriangleChannel::write_timer_high` ($400B): the length counter load is
guarded by `if self.enabled`. -/
def TriangleChannel.write_timer_high (ch : TriangleChannel) (value : Nat) : TriangleChannel :=
  let length_index := (value >>> 3) &&& 0x1F
  let ch :=
    if ch.enabled then { ch with length_counter := LENGTH_TABLE.getD length_index 0 }
    else ch
  { ch with timer_period := (ch.timer_period &&& 0x00FF) ||| (((value &&& 0x07) <<< 8) % 65536),
            linear_reload_flag := true }

/-- `NoiseChannel::write_length_load` ($400F): also guarded by
`if self.enabled`.  (Declared here, after `LENGTH_TABLE`.) -/
def NoiseChannel.write_length_load (ch : NoiseChannel) (value : Nat) : NoiseChannel :=
  let length_index := (value >>> 3) &&& 0x1F
  let ch :=
    if ch.enabled then { ch with length_counter := LENGTH_TABLE.getD length_index 0 }
    else ch
  { ch with envelope := { ch.envelope with start := true } }

/-! ## APU DMC channel (`src/apu/dmc_channel.rs`) -/

def DMC_RATE_TABLE : List Nat :=
  [428, 380, 340, 320, 286, 254, 226, 214, 190, 160, 142, 128, 106, 84, 72, 54]

structure DmcChannel where
  irq_enabled : Bool
  loop_flag : Bool
  rate_index : Nat
  output_level : Nat
  sample_address : Nat
  sample_length : Nat
  timer_period : Nat
  timer : Nat
  enabled : Bool
  current_address : Nat
  bytes_remaining : Nat
  sample_buffer : Nat
  sample_buffer_empty : Bool
  shift_register : Nat
  bits_remaining : Nat
  silence_flag : Bool
  interrupt_flag : Bool
  needs_init : Bool
  deriving DecidableEq

def DmcChannel.new : DmcChannel :=
  { irq_enabled := false, loop_flag := false, rate_index := 0,
    output_level := 0, sample_address := 0, sample_length := 0,
    timer_period := 428, timer := 428, enabled := false,
    current_address := 0, bytes_remaining := 0, sample_buffer := 0,
    sample_buffer_empty := true, shift_register := 0, bits_remaining := 0,
    silence_flag := false, interrupt_flag := false, needs_init := false }

/-- `DmcChannel::set_enabled`. -/
def DmcChannel.set_enabled (ch : DmcChannel) (enabled : Bool) : DmcChannel :=
  let was_enabled := ch.enabled
  let ch := { ch with enabled := enabled }
  if ch.enabled then
    if ¬ was_enabled ∨ ch.bytes_remaining = 0 then
      { ch with current_address := ch.sample_address,
                bytes_remaining := ch.sample_length, needs_init := true }
    else ch
  else { ch with bytes_remaining := 0 }

/-- `DmcChannel::write_flags` ($4010). -/
def DmcChannel.write_flags (ch : DmcChannel) (value : Nat) : DmcChannel :=
  let ch := { ch with irq_enabled := value &&& 0x80 ≠ 0,
                      loop_flag := value &&& 0x40 ≠ 0,
                      rate_index := value &&& 0x0F,
                      timer_period := DMC_RATE_TABLE.getD (value &&& 0x0F) 0 }
  if ¬ ch.irq_enabled then { ch with interrupt_flag := false } else ch

/-- `DmcChannel::write_direct_load` ($4011). -/
def DmcChannel.write_direct_load (ch : DmcChannel) (value : Nat) : DmcChannel :=
  { ch with output_level := value &&& 0x7F }

/-- `DmcChannel::write_sample_address` ($4012). -/
def DmcChannel.write_sample_address (ch : DmcChannel) (value : Nat) : DmcChannel :=
  { ch with sample_address := 0xC000 + ((value % 256) * 64) }

/-- `DmcChannel::write_sample_length` ($4013). -/
def DmcChannel.write_sample_length (ch : DmcChannel) (value : Nat) : DmcChannel :=
  { ch with sample_length := ((value % 256) * 16) + 1 }

/-- `DmcChannel::clear_interrupt`. -/
def DmcChannel.clear_interrupt (ch : DmcChannel) : DmcChannel :=
  { ch with interrupt_flag := false }

/-! ## APU register file (`src/apu/mod.rs`)

The `high_pass`/`low_pass` fields of `struct Apu` are first-order IIR filter
states whose coefficients are transcendental `f32` values (`2π`-derived);
they are untouched by every register write embedded here and are omitted
from the state. -/

structure Apu where
  pulse_1 : PulseChannel
  pulse_2 : PulseChannel
  triangle : TriangleChannel
  noise : NoiseChannel
  dmc : DmcChannel
  frame_counter : FrameCounter
  cycle : Nat
  frame_irq : Bool
  dmc_irq : Bool
  deriving DecidableEq

/-- `Apu::new`. -/
def Apu.new : Apu :=
  { pulse_1 := PulseChannel.new, pulse_2 := PulseChannel.new,
    triangle := TriangleChannel.new, noise := NoiseChannel.new,
    dmc := DmcChannel.new, frame_counter := FrameCounter.default,
    cycle := 0, frame_irq := false, dmc_irq := false }

/-- `Apu::write_status` ($4015): enables/disables all five channels. -/
def Apu.write_status (apu : Apu) (value : Nat) : Apu :=
  { apu with pulse_1 := apu.pulse_1.set_enabled (value &&& 0x01 ≠ 0),
             pulse_2 := apu.pulse_2.set_enabled (value &&& 0x02 ≠ 0),
             triangle := apu.triangle.set_enabled (value &&& 0x04 ≠ 0),
             noise := apu.noise.set_enabled (value &&& 0x08 ≠ 0),
             dmc := ((apu.dmc.set_enabled (value &&& 0x10 ≠ 0))).clear_interrupt }

/-- `Apu::cpu_write`: the register-write dispatch for $4000–$4017.
Addresses outside the match arms hit `unreachable!`, modelled as `none`. -/
def Apu.cpu_write (apu : Apu) (address value : Nat) : Option Apu :=
  if address = 0x4000 then some { apu with pulse_1 := apu.pulse_1.write_control value }
  else if address = 0x4001 then some { apu with pulse_1 := apu.pulse_1.write_sweep value }
  else if address = 0x4002 then some { apu with pulse_1 := apu.pulse_1.write_timer_low value }
  else if address = 0x4003 then some { apu with pulse_1 := apu.pulse_1.write_timer_high value }
  else if address = 0x4004 then some { apu with pulse_2 := apu.pulse_2.write_control value }
  else if address = 0x4005 then some { apu with pulse_2 := apu.pulse_2.write_sweep value }
  else if address = 0x4006 then some { apu with pulse_2 := apu.pulse_2.write_timer_low value }
  else if address = 0x4007 then some { apu with pulse_2 := apu.pulse_2.write_timer_high value }
  else if address = 0x4008 then some { apu with triangle := apu.triangle.write_control value }
  else if address = 0x4009 then some apu
  else if address = 0x400A then some { apu with triangle := apu.triangle.write_timer_low value }
  else if address = 0x400B then some { apu with triangle := apu.triangle.write_timer_high value }
  else if address = 0x400C then some { apu with noise := apu.noise.write_control value }
  else if address = 0x400D then some apu
  else if address = 0x400E then some { apu with noise := apu.noise.write_period value }
  else if address = 0x400F then some { apu with noise := apu.noise.write_length_load value }
  else if address = 0x4010 then some { apu with dmc := apu.dmc.write_flags value }
  else if address = 0x4011 then some { apu with dmc := apu.dmc.write_direct_load value }
  else if address = 0x4012 then some { apu with dmc := apu.dmc.write_sample_address value }
  else if address = 0x4013 then some { apu with dmc := apu.dmc.write_sample_length value }
  else if address = 0x4015 then some (apu.write_status value)
  else if address = 0x4017 then some { apu with frame_counter := apu.frame_counter.write value }
  else none

/-! ## APU mixer (`src/apu/audio_output.rs`)

The `f32` arithmetic of the mixer is modelled over `ℚ`; decimal literals
denote their exact rational values. -/

/-- The precomputed pulse table of `Mixer::default`: a 31-entry array of
zeroes with `pulse_table[0] = 0.0` and, for `i` in `1..31`,
`pulse_table[i] = 95.88 / ((8128.0 / i) + 100.0)`. -/
def pulse_table : List ℚ :=
  (List.range' 1 30).foldl
    (fun a i => a.set i (95.88 / ((8128 / (i : ℚ)) + 100)))
    ((List.replicate 31 (0 : ℚ)).set 0 0)

/-- The precomputed TND table of `Mixer::default`: 203 entries,
`tnd_table[0] = 0.0` and, for `i` in `1..203`,
`tnd_table[i] = 159.79 / ((16367.0 / i) + 100.0)`. -/
def tnd_table : List ℚ :=
  (List.range' 1 202).foldl
    (fun a i => a.set i (159.79 / ((16367 / (i : ℚ)) + 100)))
    ((List.replicate 203 (0 : ℚ)).set 0 0)

/-- Rust's `f32::clamp(min, max)`: below `lo` gives `lo`, above `hi` gives
`hi`, otherwise the value itself. -/
def ratClamp (x lo hi : ℚ) : ℚ :=
  if x < lo then lo else if hi < x then hi else x

/-- `usize::min`. -/
def natMin (a b : Nat) : Nat :=
  if a ≤ b then a else b

/-- `Mixer::mix`: table lookups saturated with `.min`, then the result is
shifted down by `1.0` and clamped to `[-1, 1]`. -/
def Mixer.mix (pulse_1 pulse_2 triangle noise dmc : Nat) : ℚ :=
  let pulse_sum := pulse_1 + pulse_2
  let pulse_output := pulse_table.getD (natMin pulse_sum 30) 0
  let tnd_sum := 3 * triangle + 2 * noise + dmc
  let tnd_output := tnd_table.getD (natMin tnd_sum 202) 0
  let mixed := pulse_output + tnd_output
  ratClamp (mixed - 1) (-1) 1

/-- The closed-form pulse-table formula as the specification states it:
`pulse_table[n] = 95.88 / (8128/n + 100)` for n ∈ [1,30], `pulse_table[0] = 0`. -/
def pulse_table_formula (n : Nat) : ℚ :=
  if n = 0 then 0 else 95.88 / (8128 / (n : ℚ) + 100)

/-- The closed-form TND-table formula as the specification states it. -/
def tnd_table_formula (n : Nat) : ℚ :=
  if n = 0 then 0 else 159.79 / (16367 / (n : ℚ) + 100)

/-! ## Cartridge loading (`src/cartridge/mod.rs`) -/

def NES_TAG : List Nat := [0x4E, 0x45, 0x53, 0x1A]
def PRG_ROM_BANK_SIZE : Nat := 16384
def CHR_ROM_BANK_SIZE : Nat := 8192
def PRG_RAM_SIZE : Nat := 8192
def CHR_RAM_SIZE : Nat := 8192

inductive Mirroring where
  | Horizontal
  | Vertical
  | SingleScreenLower
  | SingleScreenUpper
  | FourScreen
  deriving DecidableEq

/-- The only mapper `Cartridge::create_mapper` can construct is
`Mapper000` (`src/cartridge/mod.rs:137`). -/
inductive MapperBox where
  | mapper000 (prg_banks chr_banks : Nat)
  deriving DecidableEq

/-- `Cartridge::create_mapper`: mapper number 0 builds a `Mapper000`;
every other number (including 2, whose `Mapper002` implementation exists in
`src/cartridge/mapper/mapper_002.rs` but is never constructed here) is
rejected with `bail!("Unsupported mapper: {}", mapper_number)`. -/
def create_mapper (mapper_number prg_rom_size chr_rom_size : Nat) :
    Except String MapperBox :=
  if mapper_number = 0 then
    .ok (.mapper000 (prg_rom_size / PRG_ROM_BANK_SIZE) (chr_rom_size / CHR_ROM_BANK_SIZE))
  else .error ("Unsupported mapper: " ++ toString mapper_number)

structure Cartridge where
  prg_rom : List Nat
  chr_rom : List Nat
  prg_ram : List Nat
  chr_ram : List Nat
  mapper : MapperBox
  mirroring : Mirroring
  deriving DecidableEq

/-- `Cartridge::load`.  The `std::fs::read` result is the input: `none`
models a failed file read.  Header bytes are read with `getD` (in bounds
after the 16-byte length check).  The `ensure!` checks appear in source
order; `create_mapper` runs last (during the struct literal evaluation). -/
def Cartridge.load (file : Option (List Nat)) (path : String) :
    Except String Cartridge :=
  match file with
  | none => .error ("Failed to read ROM file: " ++ path)
  | some data =>
    if data.length < 16 then
      .error "ROM data is too small for expected iNES header"
    else
      let tag := [data.getD 0 0, data.getD 1 0, data.getD 2 0, data.getD 3 0]
      if tag ≠ NES_TAG then .error "Invalid iNES header"
      else
        let prg_rom_size_field := data.getD 4 0
        let chr_rom_size_field := data.getD 5 0
        let flags_6 := data.getD 6 0
        let flags_7 := data.getD 7 0
        let mapper_number := (flags_7 &&& 0xF0) ||| (flags_6 >>> 4)
        let mirroring :=
          if flags_6 &&& 0x08 ≠ 0 then Mirroring.FourScreen
          else if flags_6 &&& 0x01 ≠ 0 then Mirroring.Vertical
          else Mirroring.Horizontal
        let prg_rom_size := prg_rom_size_field * PRG_ROM_BANK_SIZE
        let chr_rom_size := chr_rom_size_field * CHR_ROM_BANK_SIZE
        let has_trainer := flags_6 &&& 0x4 ≠ 0
        let offset := if has_trainer then 16 + 512 else 16
        if data.length < offset + prg_rom_size then
          .error "ROM data is too small for expected PRG-ROM"
        else
          let prg_rom := (data.drop offset).take prg_rom_size
          let offset := offset + prg_rom_size
          let chrStep : Except String (List Nat × List Nat) :=
            if 0 < chr_rom_size then
              if data.length < offset + chr_rom_size then
                .error "ROM data is too small for expected CHR-ROM"
              else .ok ((data.drop offset).take chr_rom_size, [])
            else .ok ([], List.replicate CHR_RAM_SIZE 0)
          match chrStep with
          | .error e => .error e
          | .ok (chr_rom, chr_ram) =>
            match create_mapper mapper_number prg_rom_size chr_rom_size with
            | .error e => .error e
            | .ok mapper =>
              .ok { prg_rom := prg_rom, chr_rom := chr_rom,
                    prg_ram := List.replicate PRG_RAM_SIZE 0,
                    chr_ram := chr_ram, mapper := mapper,
                    mirroring := mirroring }

/-- Pointwise update of a memory modelled as a function. -/
def upd (f : Nat → Nat) (k v : Nat) : Nat → Nat :=
  fun a => if a = k then v else f a

/-- `Mapper::ppu_read` for the constructible mapper (`Mapper000`): the
identity on the CHR address. -/
def MapperBox.ppu_read (_m : MapperBox) (address : Nat) : Nat :=
  address

/-- `Mapper::ppu_write` for `Mapper000`: CHR writes map through only when
the cartridge has no CHR-ROM banks (CHR-RAM case). -/
def MapperBox.ppu_write (m : MapperBox) (address : Nat) : Option Nat :=
  match m with
  | .mapper000 _ chr_banks => if chr_banks = 0 then some address else none

/-- `Cartridge::ppu_read` ($0000–$1FFF). -/
def Cartridge.ppu_read (c : Cartridge) (address : Nat) : Nat :=
  let mapped_address := c.mapper.ppu_read address
  if ¬ c.chr_rom.isEmpty ∧ mapped_address < c.chr_rom.length then
    c.chr_rom.getD mapped_address 0
  else if ¬ c.chr_ram.isEmpty ∧ mapped_address < c.chr_ram.length then
    c.chr_ram.getD mapped_address 0
  else 0

/-- `Cartridge::ppu_write` (CHR-RAM only). -/
def Cartridge.ppu_write (c : Cartridge) (address value : Nat) : Cartridge :=
  match c.mapper.ppu_write address with
  | some mapped_address =>
      if ¬ c.chr_ram.isEmpty ∧ mapped_address < c.chr_ram.length then
        { c with chr_ram := c.chr_ram.set mapped_address value }
      else c
  | none => c

/-! ## PPU registers (`src/ppu/registers/*.rs`)

`ctrl`, `mask` and `status` are the `bits()` values of their bitflag sets. -/

def PPUSTAT_SPRITE_OVERFLOW : Nat := 0x20
def PPUSTAT_SPRITE_0_HIT : Nat := 0x40
def PPUSTAT_VBLANK_STARTED : Nat := 0x80
def PPUCTRL_VRAM_ADD_INCREMENT : Nat := 0x04
def PPUCTRL_GENERATE_NMI : Nat := 0x80

/-- `PpuAddrRegister`: `value` is the (high, low) byte pair. -/
structure PpuAddrRegister where
  hi : Nat
  lo : Nat
  latch : Bool
  deriving DecidableEq

def PpuAddrRegister.new : PpuAddrRegister :=
  { hi := 0, lo := 0, latch := true }

def PpuAddrRegister.get (r : PpuAddrRegister) : Nat :=
  (r.hi <<< 8) ||| r.lo

def PpuAddrRegister.set (r : PpuAddrRegister) (value : Nat) : PpuAddrRegister :=
  { r with hi := (value >>> 8) % 256, lo := value &&& 0xFF }

/-- `PpuAddrRegister::update`: latch selects high/low byte, then the value
is masked to 14 bits when above `$3FFF`, then the latch flips. -/
def PpuAddrRegister.update (r : PpuAddrRegister) (value : Nat) : PpuAddrRegister :=
  let r := if r.latch then { r with hi := value } else { r with lo := value }
  let r := if 0x3FFF < r.get then r.set (r.get &&& 0x3FFF) else r
  { r with latch := ¬ r.latch }

/-- `PpuAddrRegister::increment` (wrapping low byte with carry). -/
def PpuAddrRegister.increment (r : PpuAddrRegister) (inc : Nat) : PpuAddrRegister :=
  let low_byte := r.lo
  let r := { r with lo := (r.lo + inc) % 256 }
  let r := if r.lo < low_byte then { r with hi := (r.hi + 1) % 256 } else r
  if 0x3FFF < r.get then r.set (r.get &&& 0x3FFF) else r

def PpuAddrRegister.reset_latch (r : PpuAddrRegister) : PpuAddrRegister :=
  { r with latch := true }

structure PpuScrollRegister where
  scroll_x : Nat
  scroll_y : Nat
  latch : Bool
  deriving DecidableEq

def PpuScrollRegister.new : PpuScrollRegister :=
  { scroll_x := 0, scroll_y := 0, latch := true }

def PpuScrollRegister.update (r : PpuScrollRegister) (value : Nat) : PpuScrollRegister :=
  let r := if r.latch then { r with scroll_x := value } else { r with scroll_y := value }
  { r with latch := ¬ r.latch }

def PpuScrollRegister.reset_latch (r : PpuScrollRegister) : PpuScrollRegister :=
  { r with latch := true }

/-- `PpuCtrlRegister::vram_add_increment`. -/
def vram_add_increment (ctrl : Nat) : Nat :=
  if ctrl &&& PPUCTRL_VRAM_ADD_INCREMENT = 0 then 1 else 32

/-! ## PPU (`src/ppu/mod.rs`) -/

structure Ppu where
  cartridge : Cartridge
  ctrl : Nat
  mask : Nat
  status : Nat
  scroll : PpuScrollRegister
  addr : PpuAddrRegister
  oam_addr : Nat
  oam_data : Nat → Nat
  palette_table : Nat → Nat
  vram : Nat → Nat
  internal_data_buffer : Nat
  cycle : Nat
  scanline : Nat
  frame : Nat
  nmi_occurred : Bool
  nmi_output : Bool
  nmi_previous : Bool
  render_scroll_x : Nat
  render_scroll_y : Nat
  render_nametable_addr : Nat

/-- `Ppu::mirror_vram_address` (uses the cartridge's parsed `mirroring`
field). -/
def Ppu.mirror_vram_address (p : Ppu) (address : Nat) : Nat :=
  let mirrored_vram := address &&& 0x2FFF
  let vram_index := mirrored_vram - 0x2000
  let name_table := vram_index / 0x400
  match p.cartridge.mirroring, name_table with
  | .Vertical, 2 | .Vertical, 3 | .Horizontal, 3 => vram_index - 0x800
  | .Horizontal, 1 | .Horizontal, 2 => vram_index - 0x400
  | _, _ => vram_index

def Ppu.set_vblank (p : Ppu) : Ppu :=
  { p with status := p.status ||| PPUSTAT_VBLANK_STARTED, nmi_occurred := true }

def Ppu.clear_vblank (p : Ppu) : Ppu :=
  { p with status := p.status &&& (255 - PPUSTAT_VBLANK_STARTED), nmi_occurred := false }

def Ppu.update_nmi_output (p : Ppu) : Ppu :=
  let nmi_enabled := p.ctrl &&& PPUCTRL_GENERATE_NMI ≠ 0
  { p with nmi_output := p.nmi_occurred ∧ nmi_enabled }

def Ppu.increment_vram_addr (p : Ppu) : Ppu :=
  { p with addr := p.addr.increment (vram_add_increment p.ctrl) }

/-- `Ppu::read_status`: returns the status bits, clears VBlank, resets both
write latches. -/
def Ppu.read_status (p : Ppu) : Nat × Ppu :=
  let result := p.status
  let p := p.clear_vblank
  let p := { p with addr := p.addr.reset_latch, scroll := p.scroll.reset_latch }
  (result, p)

/-- `Ppu::read_oam_data`. -/
def Ppu.read_oam_data (p : Ppu) : Nat × Ppu :=
  (p.oam_data p.oam_addr, p)

/-- `Ppu::read_data`: buffered CHR/VRAM reads, immediate palette reads.
The `$3000-$3EFF` arm is `unimplemented!` and the final arm is `panic!`,
both modelled as `none`. -/
def Ppu.read_data (p : Ppu) : Option (Nat × Ppu) :=
  let address := p.addr.get
  let p := p.increment_vram_addr
  if address ≤ 0x1FFF then
    let result := p.internal_data_buffer
    some (result, { p with internal_data_buffer := p.cartridge.ppu_read address })
  else if address ≤ 0x2FFF then
    let result := p.internal_data_buffer
    some (result, { p with internal_data_buffer := p.vram (p.mirror_vram_address address) })
  else if address ≤ 0x3EFF then none
  else if address = 0x3F10 ∨ address = 0x3F14 ∨ address = 0x3F18 ∨ address = 0x3F1C then
    some (p.palette_table ((address - 0x10) - 0x3F00), p)
  else if address ≤ 0x3FFF then
    some (p.palette_table (address - 0x3F00), p)
  else none

def Ppu.write_to_ppu_ctrl (p : Ppu) (value : Nat) : Ppu :=
  { p with ctrl := value }

def Ppu.write_to_ppu_mask (p : Ppu) (value : Nat) : Ppu :=
  { p with mask := value }

def Ppu.write_to_oam_addr (p : Ppu) (value : Nat) : Ppu :=
  { p with oam_addr := value }

/-- `Ppu::write_to_oam_data`: stores at `oam_addr` and increments it
(wrapping `u8`). -/
def Ppu.write_to_oam_data (p : Ppu) (value : Nat) : Ppu :=
  { p with oam_data := upd p.oam_data p.oam_addr value,
           oam_addr := (p.oam_addr + 1) % 256 }

def Ppu.write_to_ppu_scroll (p : Ppu) (value : Nat) : Ppu :=
  { p with scroll := p.scroll.update value }

def Ppu.write_to_ppu_addr (p : Ppu) (value : Nat) : Ppu :=
  { p with addr := p.addr.update value }

/-- `Ppu::write_data`; the `$3000-$3EFF` and out-of-range arms are
`unimplemented!`/`panic!`, modelled as `none`. -/
def Ppu.write_data (p : Ppu) (value : Nat) : Option Ppu :=
  let address := p.addr.get
  let p' :=
    if address ≤ 0x1FFF then
      some { p with cartridge := p.cartridge.ppu_write address value }
    else if address ≤ 0x2FFF then
      some { p with vram := upd p.vram (p.mirror_vram_address address) value }
    else if address ≤ 0x3EFF then none
    else if address = 0x3F10 ∨ address = 0x3F14 ∨ address = 0x3F18 ∨ address = 0x3F1C then
      some { p with palette_table := upd p.palette_table ((address - 0x10) - 0x3F00) value }
    else if address ≤ 0x3FFF then
      some { p with palette_table := upd p.palette_table (address - 0x3F00) value }
    else none
  p'.map Ppu.increment_vram_addr

/-- `Ppu::write_to_oam_dma` (src/ppu/mod.rs:221): writes each of the 256
buffer bytes through `write_to_oam_data`, starting at the current
`oam_addr`. -/
def Ppu.write_to_oam_dma (p : Ppu) (value : List Nat) : Ppu :=
  value.foldl Ppu.write_to_oam_data p

/-! ## Bus (`src/bus.rs`)

`Bus::read`/`Bus::write` are the `Mem` impl; the mirror arms
(`$2008-$3FFF → address & 0x2007`) recurse exactly once, so they are
written as a wrapper around the non-mirror core.  `panic!` arms and
out-of-bounds `prg_rom` indexing are `none`. -/

structure Bus where
  ram : Nat → Nat
  prg_rom : List Nat
  ppu : Ppu
  joypad_1 : Joypad
  nmi_pending : Bool
  irq_pending : Bool

/-- `Bus::read_prg_rom`: 16 KiB images are mirrored; a `prg_rom` index out
of bounds panics (`none`). -/
def Bus.read_prg_rom (b : Bus) (address : Nat) : Option Nat :=
  let address := address - 0x8000
  let address :=
    if b.prg_rom.length = 0x4000 ∧ 0x4000 ≤ address then address % 0x4000
    else address
  if address < b.prg_rom.length then some (b.prg_rom.getD address 0) else none

/-- `Bus::read`, all non-mirror arms. -/
def Bus.read_core (b : Bus) (address : Nat) : Option (Nat × Bus) :=
  if address ≤ 0x1FFF then some (b.ram (address &&& 0x7FF), b)
  else if address = 0x2000 ∨ address = 0x2001 ∨ address = 0x2003 ∨
          address = 0x2005 ∨ address = 0x2006 ∨ address = 0x4014 then
    some (0, b)
  else if address = 0x2002 then
    let (v, ppu) := b.ppu.read_status
    some (v, { b with ppu := ppu })
  else if address = 0x2004 then
    let (v, ppu) := b.ppu.read_oam_data
    some (v, { b with ppu := ppu })
  else if address = 0x2007 then
    (b.ppu.read_data).map fun (v, ppu) => (v, { b with ppu := ppu })
  else if address = 0x4016 then
    let (v, j) := b.joypad_1.read
    some (v, { b with joypad_1 := j })
  else if address = 0x4017 then some (0, b)
  else if 0x8000 ≤ address ∧ address ≤ 0xFFFF then
    (b.read_prg_rom address).map fun v => (v, b)
  else some (0, b)

/-- `Bus::read`: the `$2008-$3FFF` mirror arm re-dispatches on
`address & 0x2007`. -/
def Bus.read (b : Bus) (address : Nat) : Option (Nat × Bus) :=
  if 0x2008 ≤ address ∧ address ≤ 0x3FFF then b.read_core (address &&& 0x2007)
  else b.read_core address

/-- The OAM-DMA transfer loop of `Bus::write`
(src/bus.rs:123): 256 sequential bus reads from `$hi00-$hiFF` into the
buffer. -/
def Bus.dma_read_buffer (b : Bus) (high_byte : Nat) : Option (List Nat × Bus) :=
  (List.range 256).foldlM
    (fun (acc : List Nat × Bus) i =>
      (acc.2.read (high_byte + i)).map fun (v, b') => (acc.1 ++ [v], b'))
    ([], b)

/-- `Bus::write`, all non-mirror arms. -/
def Bus.write_core (b : Bus) (address value : Nat) : Option Bus :=
  if address ≤ 0x1FFF then
    some { b with ram := upd b.ram (address &&& 0x7FF) value }
  else if address = 0x2000 then some { b with ppu := b.ppu.write_to_ppu_ctrl value }
  else if address = 0x2001 then some { b with ppu := b.ppu.write_to_ppu_mask value }
  else if address = 0x2002 then none
  else if address = 0x2003 then some { b with ppu := b.ppu.write_to_oam_addr value }
  else if address = 0x2004 then some { b with ppu := b.ppu.write_to_oam_data value }
  else if address = 0x2005 then some { b with ppu := b.ppu.write_to_ppu_scroll value }
  else if address = 0x2006 then some { b with ppu := b.ppu.write_to_ppu_addr value }
  else if address = 0x2007 then
    (b.ppu.write_data value).map fun ppu => { b with ppu := ppu }
  else if address = 0x4014 then
    let high_byte := (value % 256) <<< 8
    (b.dma_read_buffer high_byte).map fun (buffer, b') =>
      { b' with ppu := b'.ppu.write_to_oam_dma buffer }
  else if address = 0x4016 then some { b with joypad_1 := b.joypad_1.write value }
  else if address = 0x4017 then some b
  else if 0x8000 ≤ address ∧ address ≤ 0xFFFF then none
  else some b

/-- `Bus::write` with the `$2008-$3FFF` mirror arm. -/
def Bus.write (b : Bus) (address value : Nat) : Option Bus :=
  if 0x2008 ≤ address ∧ address ≤ 0x3FFF then b.write_core (address &&& 0x2007) value
  else b.write_core address value

/-! ## Concrete states used by the evaluation theorems -/

/-- The 16-byte iNES header of a well-formed mapper-2 (UxROM) image:
valid tag, one 16 KiB PRG bank, no CHR banks, `flags_6 = $20` (mapper low
nibble 2), no trainer. -/
def inesHeaderM2 : List Nat :=
  [0x4E, 0x45, 0x53, 0x1A, 1, 0, 0x20, 0, 0, 0, 0, 0, 0, 0, 0, 0]

/-- A cartridge with no CHR data (unused by the DMA path). -/
def c3Cartridge : Cartridge :=
  { prg_rom := [], chr_rom := [], prg_ram := [], chr_ram := [],
    mapper := .mapper000 1 0, mirroring := .Horizontal }

/-- A PPU mid-frame (cycle 100, scanline 50, frame 3) whose OAM pointer is
at 3, attached to `c3Cartridge`. -/
def c3Ppu : Ppu :=
  { cartridge := c3Cartridge, ctrl := 0, mask := 0, status := 0,
    scroll := PpuScrollRegister.new, addr := PpuAddrRegister.new,
    oam_addr := 3, oam_data := fun _ => 0, palette_table := fun _ => 0,
    vram := fun _ => 0, internal_data_buffer := 0,
    cycle := 100, scanline := 50, frame := 3,
    nmi_occurred := false, nmi_output := false, nmi_previous := false,
    render_scroll_x := 0, render_scroll_y := 0, render_nametable_addr := 0x2000 }

/-- A bus whose work RAM holds the byte `(a + 7) % 256` at address `a`. -/
def c3Bus : Bus :=
  { ram := fun a => (a + 7) % 256, prg_rom := [], ppu := c3Ppu,
    joypad_1 := Joypad.new, nmi_pending := false, irq_pending := false }


/-- A CPU state with X = $01, Y = $02 and every memory byte equal to $10. -/
def c1Cpu : Cpu :=
  { pc := 0, sp := STACK_RESET, a := 0, x := 0x01, y := 0x02,
    status := INTERRUPT_DISABLE ||| UNUSED, mem := fun _ => 0x10 }

/-- A CPU state whose stack holds the byte $00 at the pull position
($01FE, since SP = $FD). -/
def c2Cpu : Cpu :=
  { pc := 0, sp := STACK_RESET, a := 0, x := 0, y := 0,
    status := INTERRUPT_DISABLE ||| UNUSED, mem := fun _ => 0 }

/-- A CPU state whose program bytes at PC = 0 form the pointer $10FF
(low byte $FF), with distinct bytes at $1000, $10FF and $1100. -/
def c8Cpu : Cpu :=
  { pc := 0, sp := STACK_RESET, a := 0, x := 0, y := 0,
    status := INTERRUPT_DISABLE ||| UNUSED,
    mem := fun a =>
      if a = 0 then 0xFF else if a = 1 then 0x10
      else if a = 0x1000 then 0xAB else if a = 0x10FF then 0xCD
      else if a = 0x1100 then 0x77 else 0 }

/-! ## C1 -/

/-- C1: the claim says resolving `ZeroPageY` yields `(b + Y) mod 256`.  On
`c1Cpu` (base byte $10, X = $01, Y = $02) the code yields $11 = b + X,
not $12 = (b + Y) mod 256: `Cpu::get_operand_address` adds `self.x` in the
`ZeroPageY` arm (src/cpu/addressing.rs:39), contradicting its own comment.
-/
theorem C1_zero_page_y_adds_x :
    c1Cpu.get_operand_address .ZeroPageY 0 = (0x11, false) ∧
    (0x11 : Nat) ≠ (c1Cpu.read 0 + c1Cpu.y) % 256 := by
  decide

/-! ## C2 -/

/-- C2: the claim says PLP and RTI force B = 0 and U = 1 in the live status
register.  Pulling the byte $00 with PLP leaves U = 0 (the code only
removes `BREAK_COMMAND` and never inserts `UNUSED`,
src/cpu/instructions.rs:1315), while RTI does force U = 1; so the U-part of
the invariant is violated by PLP. -/
theorem C2_plp_does_not_force_unused :
    (c2Cpu.plp).status &&& UNUSED = 0 ∧
    (c2Cpu.plp).status &&& BREAK_COMMAND = 0 ∧
    (c2Cpu.rti).status &&& UNUSED = UNUSED := by
  decide

/-! ## C5 -/

/-- C5: the claim says that after clearing a channel's enabled bit, no
write to its length-load register can make the length counter non-zero.
After `$00 → $4015` (all channels disabled) a write of `$08 → $4003` loads
pulse 1's length counter with `LENGTH_TABLE[1] = 254` while the channel is
still disabled: `PulseChannel::write_timer_high` has no `if self.enabled`
guard (src/apu/pulse_channel.rs:91), unlike the triangle and noise
channels. -/
theorem C5_disabled_pulse_accepts_length_load :
    ((Apu.new.cpu_write 0x4015 0x00).bind (fun a => a.cpu_write 0x4003 0x08)
        |>.map fun a => (a.pulse_1.length_counter, a.pulse_1.enabled))
      = some (254, false) ∧ (254 : Nat) ≠ 0 := by
  decide

/-! ## C8 -/

/-- C8: for JMP-Indirect, when the pointer's low byte is $FF the target's
high byte is fetched from `ptr & $FF00` rather than `ptr + 1`; otherwise
from `ptr + 1`; the low byte always comes from `ptr`
(src/cpu/addressing.rs:65-79). -/
theorem C8_indirect_jmp_page_wrap (c : Cpu) (pc : Nat) (hpc : pc + 1 ≤ 0xFFFF) :
    (c.read_u16 pc &&& 0x00FF = 0x00FF →
      c.get_operand_address .Indirect pc =
        ((c.read (c.read_u16 pc &&& 0xFF00) <<< 8) ||| c.read (c.read_u16 pc), false)) ∧
    (c.read_u16 pc &&& 0x00FF ≠ 0x00FF →
      c.get_operand_address .Indirect pc =
        ((c.read (c.read_u16 pc + 1) <<< 8) ||| c.read (c.read_u16 pc), false)) := by
  constructor <;> intro h <;> simp [Cpu.get_operand_address, h]

/-- Witness for C8 at the concrete pointer $10FF (low byte $FF): the high
byte comes from $1000, giving target $ABCD. -/
theorem C8_indirect_jmp_page_wrap_witness :
    c8Cpu.get_operand_address .Indirect 0 =
      ((c8Cpu.read (c8Cpu.read_u16 0 &&& 0xFF00) <<< 8) ||| c8Cpu.read (c8Cpu.read_u16 0), false) :=
  (C8_indirect_jmp_page_wrap c8Cpu 0 (by decide)).1 (by decide)

/-! ## C9 -/

/-- If a bitwise or of naturals is zero, so is its left operand. -/
theorem lor_left_eq_zero {a b : Nat} (h : a ||| b = 0) : a = 0 := by
  by_contra ha
  obtain ⟨i, hi, -⟩ := Nat.exists_most_significant_bit ha
  have h2 : (a ||| b).testBit i = true := by simp [Nat.testBit_or, hi]
  rw [h] at h2
  simp at h2

/-- C9: the noise LFSR is initialised to 1 and one `clock_lfsr` step maps
every non-zero register value to a non-zero value
(src/apu/noise_channel.rs:22-37,82-88). -/
theorem C9_lfsr_never_zero (ch : NoiseChannel) (h : ch.shift_register ≠ 0) :
    NoiseChannel.new.shift_register = 1 ∧ (ch.clock_lfsr).shift_register ≠ 0 := by
  refine ⟨rfl, ?_⟩
  have hstep : (ch.clock_lfsr).shift_register =
      (ch.shift_register >>> 1) |||
      (((ch.shift_register &&& 1) ^^^
        ((ch.shift_register >>> (if ch.mode then 6 else 1)) &&& 1)) <<< 14) := rfl
  rw [hstep]
  by_cases hd : ch.shift_register / 2 = 0
  · have hsr : ch.shift_register = 1 := by omega
    rw [hsr]
    cases hm : ch.mode <;> simp [hm]
  · intro hzero
    have h1 := lor_left_eq_zero hzero
    rw [Nat.shiftRight_one] at h1
    exact hd h1

/-- Witness for C9: applied at the freshly constructed noise channel, whose
LFSR value is 1. -/
theorem C9_lfsr_never_zero_witness :
    NoiseChannel.new.shift_register = 1 ∧
    (NoiseChannel.new.clock_lfsr).shift_register ≠ 0 :=
  C9_lfsr_never_zero NoiseChannel.new (by decide)

/-! ## C10 -/

/-- Unfolding `readN` from the last read instead of the first. -/
theorem Joypad.readN_succ_last (j : Joypad) (n : Nat) :
    j.readN (n + 1) = (j.readN n).read.2 := by
  induction n generalizing j with
  | zero => simp [Joypad.readN]
  | succ m ihm =>
      show (j.read.2).readN (m + 1) = _
      rw [ihm]
      rfl

/-- C10: while the strobe bit is set (the last `$4016` write had bit 0 = 1)
every controller read returns the state of button A (bit 0) and leaves the
shift index at 0; a read advances the shift index only when the strobe is
clear (src/joypad.rs:30-48). -/
theorem C10_strobe_freezes_shift_index (j : Joypad) (v : Nat) (hv : v &&& 1 = 1) :
    (∀ n : Nat,
      ((j.write v).readN n).button_index = 0 ∧
      ((j.write v).readN n).strobe = true ∧
      ((j.write v).readN n).button_states = j.button_states ∧
      (((j.write v).readN n).read).1 = j.button_states &&& 1) ∧
    (∀ j2 : Joypad, j2.strobe = true → (j2.read).2.button_index = j2.button_index) := by
  constructor
  · have hwrite : j.write v =
        { j with strobe := true, button_index := 0 } := by
      simp [Joypad.write, hv]
    have hread : ∀ jj : Joypad, jj.strobe = true → jj.button_index = 0 →
        jj.read = (jj.button_states &&& 1, jj) := by
      intro jj hs hi
      simp [Joypad.read, hs, hi, Nat.shiftLeft_zero, Nat.shiftRight_zero]
    have hstate : ∀ n, ((j.write v).readN n) =
        { j with strobe := true, button_index := 0 } := by
      intro n
      induction n with
      | zero => simpa [Joypad.readN] using hwrite
      | succ n ih =>
          rw [Joypad.readN_succ_last, ih, hread _ rfl rfl]
    intro n
    refine ⟨by rw [hstate n], by rw [hstate n], by rw [hstate n], ?_⟩
    rw [hstate n, hread _ rfl rfl]
  · intro j2 hs
    by_cases h7 : 7 < j2.button_index
    · simp [Joypad.read, h7]
    · simp [Joypad.read, h7, hs]

/-- Witness for C10: a strobing write of $01 followed by three reads on a
pad whose A button is pressed (`button_states = 1`). -/
theorem C10_strobe_freezes_shift_index_witness :
    (({ strobe := false, button_index := 0, button_states := 1 : Joypad }.write 1).readN 3).button_index = 0 ∧
    ((({ strobe := false, button_index := 0, button_states := 1 : Joypad }.write 1).readN 3).read).1 = 1 := by
  have h := (C10_strobe_freezes_shift_index
    { strobe := false, button_index := 0, button_states := 1 } 1 (by decide)).1 3
  exact ⟨h.1, h.2.2.2⟩

/-! ## C4 -/

/-- Unfolding `clockN` from the last clock instead of the first. -/
theorem FrameCounter.clockN_succ_last (fc : FrameCounter) (n : Nat) :
    fc.clockN (n + 1) = (fc.clockN n).clock.2 := by
  induction n generalizing fc with
  | zero => simp [FrameCounter.clockN]
  | succ m ihm =>
      show (fc.clock.2).clockN (m + 1) = _
      rw [ihm]
      rfl

/-- The per-cycle dispatch of the 4-step sequencer never touches the mode,
the write-delay counter or the pending byte. -/
theorem FrameCounter.clock_four_step_preserves (fc : FrameCounter) (s : ClockSignals) :
    ((fc.clock_four_step s).2).mode = fc.mode ∧
    ((fc.clock_four_step s).2).write_delay_counter = fc.write_delay_counter ∧
    ((fc.clock_four_step s).2).pending_write = fc.pending_write := by
  unfold FrameCounter.clock_four_step
  split_ifs <;> simp

/-- Likewise for the 5-step sequencer. -/
theorem FrameCounter.clock_five_step_preserves (fc : FrameCounter) (s : ClockSignals) :
    ((fc.clock_five_step s).2).mode = fc.mode ∧
    ((fc.clock_five_step s).2).write_delay_counter = fc.write_delay_counter ∧
    ((fc.clock_five_step s).2).pending_write = fc.pending_write := by
  unfold FrameCounter.clock_five_step
  split_ifs <;> simp

/-- A clock with the write-delay counter at 2 or more only decrements it:
mode and pending byte are untouched. -/
theorem FrameCounter.clock_delay_step (fc : FrameCounter) (n : Nat)
    (h : fc.write_delay_counter = n + 2) :
    ((fc.clock).2).mode = fc.mode ∧
    ((fc.clock).2).write_delay_counter = n + 1 ∧
    ((fc.clock).2).pending_write = fc.pending_write := by
  have h0 : 0 < fc.write_delay_counter := by omega
  have hne : ¬ (fc.write_delay_counter - 1 = 0) := by omega
  unfold FrameCounter.clock
  simp only [if_pos h0, hne, if_neg, ite_false]
  rcases hm : fc.mode with _ | _
  · simp only [hm]
    refine ⟨?_, ?_, ?_⟩
    · exact (FrameCounter.clock_four_step_preserves _ _).1.trans (by simp [hm])
    · exact (FrameCounter.clock_four_step_preserves _ _).2.1.trans (by simp; omega)
    · exact (FrameCounter.clock_four_step_preserves _ _).2.2.trans (by simp)
  · simp only [hm]
    refine ⟨?_, ?_, ?_⟩
    · exact (FrameCounter.clock_five_step_preserves _ _).1.trans (by simp [hm])
    · exact (FrameCounter.clock_five_step_preserves _ _).2.1.trans (by simp; omega)
    · exact (FrameCounter.clock_five_step_preserves _ _).2.2.trans (by simp)

/-- A clock with the write-delay counter at exactly 1 applies the pending
byte: the mode switches, the cycle counter restarts (holding 1 after the
effect clock itself is counted), the pending byte is consumed, and a
switch into 5-step mode emits an immediate quarter+half frame clock. -/
theorem FrameCounter.clock_apply_step (fc : FrameCounter) (v : Nat)
    (h1 : fc.write_delay_counter = 1) (h2 : fc.pending_write = some v) :
    ((fc.clock).2).mode =
      (if v &&& 0x80 ≠ 0 then FrameCounterMode.FiveStep else .FourStep) ∧
    ((fc.clock).2).cycle_counter = 1 ∧
    ((fc.clock).2).pending_write = none ∧
    (v &&& 0x80 ≠ 0 →
      ((fc.clock).1).clock_envelopes = true ∧ ((fc.clock).1).clock_length = true) := by
  unfold FrameCounter.clock
  rw [h1, h2]
  by_cases h80 : v &&& 0x80 ≠ 0 <;>
    by_cases h40 : v &&& 0x40 ≠ 0 <;>
      simp [h80, h40, FrameCounter.clock_four_step, FrameCounter.clock_five_step]

/-- C4 counterexample: the claim says a `$4017` write landing on an even
CPU cycle takes effect after a 3-cycle delay.  Writing `$80` to the default
frame counter (cycle counter 0, an even cycle) and clocking three times
leaves the old 4-step mode in force: `FrameCounter::write` always sets
`write_delay_counter = 4` (src/apu/frame_counter.rs:38-41), so the effect
lands only on the 4th clock regardless of parity. -/
theorem C4_three_cycle_delay_counterexample :
    ((FrameCounter.default.write 0x80).clockN 3).mode ≠ FrameCounterMode.FiveStep := by
  decide

/-- C4 (amended): a `$4017` write takes effect after exactly four
subsequent clocks, regardless of the cycle parity at the write; during the
delay the old mode continues; on effect the cycle counter restarts (it
reads 1 after the effect clock is counted), the pending byte is consumed,
and a switch into 5-step mode emits an immediate quarter+half frame
clock. -/
theorem C4_write_effect_after_four_clocks (fc : FrameCounter) (v : Nat) :
    (∀ k, k ≤ 3 → ((fc.write v).clockN k).mode = fc.mode) ∧
    ((fc.write v).clockN 4).mode =
      (if v &&& 0x80 ≠ 0 then FrameCounterMode.FiveStep else .FourStep) ∧
    ((fc.write v).clockN 4).cycle_counter = 1 ∧
    ((fc.write v).clockN 4).pending_write = none ∧
    (v &&& 0x80 ≠ 0 →
      ((((fc.write v).clockN 3).clock).1).clock_envelopes = true ∧
      ((((fc.write v).clockN 3).clock).1).clock_length = true) := by
  have hw4 : (fc.write v).write_delay_counter = 4 := rfl
  have hwp : (fc.write v).pending_write = some v := rfl
  have hwm : (fc.write v).mode = fc.mode := rfl
  have h1 := FrameCounter.clock_delay_step (fc.write v) 2 hw4
  have h2 := FrameCounter.clock_delay_step ((fc.write v).clock).2 1 h1.2.1
  have h3 := FrameCounter.clock_delay_step (((fc.write v).clock).2.clock).2 0 h2.2.1
  have hs3 : (fc.write v).clockN 3 = ((((fc.write v).clock).2.clock).2.clock).2 := rfl
  have happly := FrameCounter.clock_apply_step ((fc.write v).clockN 3) v
    (by rw [hs3]; exact h3.2.1) (by rw [hs3, h3.2.2, h2.2.2, h1.2.2, hwp])
  have hs4 : (fc.write v).clockN 4 = (((fc.write v).clockN 3).clock).2 :=
    FrameCounter.clockN_succ_last _ 3
  refine ⟨?_, ?_, ?_, ?_, ?_⟩
  · intro k hk
    interval_cases k
    · exact hwm
    · exact h1.1.trans hwm
    · exact h2.1.trans (h1.1.trans hwm)
    · exact (hs3 ▸ (h3.1.trans (h2.1.trans (h1.1.trans hwm))))
  · rw [hs4]; exact happly.1
  · rw [hs4]; exact happly.2.1
  · rw [hs4]; exact happly.2.2.1
  · exact happly.2.2.2

/-- Witness for C4: writing `$80` (5-step select) to the default frame
counter: mode is still 4-step after two clocks, 5-step after four, and the
fourth clock emits the immediate quarter+half signals. -/
theorem C4_write_effect_after_four_clocks_witness :
    ((FrameCounter.default.write 0x80).clockN 2).mode = FrameCounterMode.FourStep ∧
    ((FrameCounter.default.write 0x80).clockN 4).mode = FrameCounterMode.FiveStep ∧
    ((((FrameCounter.default.write 0x80).clockN 3).clock).1).clock_envelopes = true := by
  have h := C4_write_effect_after_four_clocks FrameCounter.default 0x80
  refine ⟨h.1 2 (by norm_num), ?_, (h.2.2.2.2 (by decide)).1⟩
  have h4 := h.2.1
  simpa using h4

/-! ## C6 -/

/-- Folding index-wise `set`s of `g` over `range' s k` writes `g j` at
every position in `[s, s+k)` and leaves the rest of the list alone. -/
theorem foldl_set_getD (g : Nat → ℚ) (init : List ℚ) (s k j : Nat)
    (hj : j < init.length) :
    ((List.range' s k).foldl (fun a i => a.set i (g i)) init).getD j 0 =
      if s ≤ j ∧ j < s + k then g j else init.getD j 0 := by
  induction k generalizing s init with
  | zero =>
      have h0 : ¬ (s ≤ j ∧ j < s) := by omega
      simp [h0]
  | succ m ih =>
      rw [List.range'_succ, List.foldl_cons]
      rw [ih (init.set s (g s)) (s + 1) (by simpa using hj)]
      by_cases h1 : s + 1 ≤ j ∧ j < s + 1 + m
      · rw [if_pos h1, if_pos (by omega)]
      · rw [if_neg h1]
        by_cases h2 : j = s
        · subst h2
          rw [if_pos (by omega)]
          simp [List.getD, List.getElem?_set, hj]
        · rw [if_neg (by omega)]
          simp [List.getD, List.getElem?_set, Ne.symm h2]

/-- The initial mixer tables (all zeroes, index 0 re-set to 0) read 0
everywhere. -/
theorem replicate_set_getD (k j : Nat) :
    ((List.replicate k (0 : ℚ)).set 0 0).getD j 0 = 0 := by
  by_cases hj : j < k
  · by_cases h0 : j = 0
    · simp [List.getD, List.getElem?_set, h0, hj, List.getElem?_replicate]
      split <;> rfl
    · simp [List.getD, List.getElem?_set, h0, hj, List.getElem?_replicate]
  · have hlen : ((List.replicate k (0 : ℚ)).set 0 0).length = k := by simp
    simp [List.getD, List.getElem?_eq_none, hlen, Nat.le_of_not_lt hj]

/-- Every `pulse_table` entry agrees with the closed-form formula. -/
theorem pulse_table_getD (j : Nat) (hj : j ≤ 30) :
    pulse_table.getD j 0 = pulse_table_formula j := by
  unfold pulse_table pulse_table_formula
  rw [foldl_set_getD _ _ _ _ _ (by rw [List.length_set, List.length_replicate]; omega)]
  rcases Nat.eq_zero_or_pos j with h0 | h0
  · subst h0
    rw [if_neg (by omega), if_pos rfl, replicate_set_getD]
  · rw [if_pos (by omega), if_neg (by omega)]

/-- Every `tnd_table` entry agrees with the closed-form formula. -/
theorem tnd_table_getD (j : Nat) (hj : j ≤ 202) :
    tnd_table.getD j 0 = tnd_table_formula j := by
  unfold tnd_table tnd_table_formula
  rw [foldl_set_getD _ _ _ _ _ (by rw [List.length_set, List.length_replicate]; omega)]
  rcases Nat.eq_zero_or_pos j with h0 | h0
  · subst h0
    rw [if_neg (by omega), if_pos rfl, replicate_set_getD]
  · rw [if_pos (by omega), if_neg (by omega)]

/-- C6 counterexample: the claim says the mixer output equals
`pulse_table[p1+p2] + tnd_table[3t+2n+d]`.  With all five channels silent
that sum is 0, but `Mixer::mix` returns `(0 - 1.0).clamp(-1.0, 1.0) = -1`
(src/apu/audio_output.rs:39-40 shifts the table sum down by 1 and clamps
it before the filters see it). -/
theorem C6_mixer_counterexample :
    Mixer.mix 0 0 0 0 0 ≠
      pulse_table_formula (0 + 0) + tnd_table_formula (3 * 0 + 2 * 0 + 0) := by
  have h1 := pulse_table_getD 0 (by norm_num)
  have h2 := tnd_table_getD 0 (by norm_num)
  have hmix : Mixer.mix 0 0 0 0 0 =
      ratClamp (pulse_table.getD 0 0 + tnd_table.getD 0 0 - 1) (-1) 1 := rfl
  rw [hmix, h1, h2]
  norm_num [ratClamp, pulse_table_formula, tnd_table_formula]

/-- C6 (amended): for in-range channel outputs, `Mixer::mix` equals the
table-formula sum shifted down by 1 and clamped to `[-1, 1]`, with
`pulse_table[n] = 95.88/(8128/n + 100)` (0 at n = 0) and
`tnd_table[n] = 159.79/(16367/n + 100)` (0 at n = 0). -/
theorem C6_mixer_clamped_formula (p1 p2 t n d : Nat)
    (h1 : p1 + p2 ≤ 30) (h2 : 3 * t + 2 * n + d ≤ 202) :
    Mixer.mix p1 p2 t n d =
      ratClamp (pulse_table_formula (p1 + p2) +
        tnd_table_formula (3 * t + 2 * n + d) - 1) (-1) 1 := by
  have hp := pulse_table_getD (p1 + p2) h1
  have ht := tnd_table_getD (3 * t + 2 * n + d) h2
  have hm1 : natMin (p1 + p2) 30 = p1 + p2 := by simp [natMin, h1]
  have hm2 : natMin (3 * t + 2 * n + d) 202 = 3 * t + 2 * n + d := by
    simp [natMin, h2]
  simp only [Mixer.mix]
  rw [hm1, hm2, hp, ht]

/-! ## C7 -/

/-- C7: the claim says `Cartridge::load` returns `Ok` for well-formed iNES
files with mapper 0 or 2.  On any well-formed mapper-2 file (the header
above followed by its full 16 KiB PRG bank) it returns the `create_mapper`
error instead: `Cartridge::create_mapper` (src/cartridge/mod.rs:137-142)
only matches mapper 0, although `Mapper002` is implemented in
`src/cartridge/mapper/mapper_002.rs` and exported. -/
theorem C7_mapper2_rejected (rest : List Nat) (hrest : rest.length = 16384) :
    Cartridge.load (some (inesHeaderM2 ++ rest)) "rom.nes" =
      .error "Unsupported mapper: 2" := by
  have hlen : (inesHeaderM2 ++ rest).length = 16400 := by
    simp [inesHeaderM2, hrest]
  have hg0 : (inesHeaderM2 ++ rest).getD 0 0 = 0x4E := rfl
  have hg1 : (inesHeaderM2 ++ rest).getD 1 0 = 0x45 := rfl
  have hg2 : (inesHeaderM2 ++ rest).getD 2 0 = 0x53 := rfl
  have hg3 : (inesHeaderM2 ++ rest).getD 3 0 = 0x1A := rfl
  have hg4 : (inesHeaderM2 ++ rest).getD 4 0 = 1 := rfl
  have hg5 : (inesHeaderM2 ++ rest).getD 5 0 = 0 := rfl
  have hg6 : (inesHeaderM2 ++ rest).getD 6 0 = 0x20 := rfl
  have hg7 : (inesHeaderM2 ++ rest).getD 7 0 = 0 := rfl
  rw [Cartridge.load]
  rw [hlen, hg0, hg1, hg2, hg3, hg4, hg5, hg6, hg7]
  have hb1 : (32 : Nat) &&& 4 = 0 := by decide
  have hb2 : (32 : Nat) >>> 4 = 2 := by decide
  have hb3 : (32 : Nat) &&& 8 = 0 := by decide
  norm_num [NES_TAG, create_mapper, PRG_ROM_BANK_SIZE, CHR_ROM_BANK_SIZE,
    hb1, hb2, hb3]
  rfl

/-- Witness for C7: the mapper-2 file whose PRG bank is all zeroes. -/
theorem C7_mapper2_rejected_witness :
    Cartridge.load (some (inesHeaderM2 ++ List.replicate 16384 0)) "rom.nes" =
      .error "Unsupported mapper: 2" :=
  C7_mapper2_rejected (List.replicate 16384 0) (by rw [List.length_replicate])

/-! ## C3 -/

set_option maxRecDepth 4000 in
/-- C3: the claim says a write to $4014 copies `$hi00-$hiFF` into OAM *and*
stalls the CPU for 513/514 cycles with the PPU and APU advanced during the
stall.  Evaluating `Bus::write` at $4014 on `c3Bus` (hi = 0): the 256 RAM
bytes land in OAM starting at the current OAM address 3 (wrapping), but
the PPU's cycle/scanline/frame counters are exactly as before — the arm at
src/bus.rs:123-131 performs the copy and returns; there is no stall logic,
no cycle accounting, and the `Bus` of src/bus.rs holds no APU at all.  A
real 513-cycle stall would advance the PPU by 1539 ticks
(1539 mod (341·262) ≠ 0), which must change `(cycle, scanline, frame)`. -/
theorem C3_oam_dma_copies_but_never_stalls :
    ((c3Bus.write 0x4014 0).map fun b =>
        (b.ppu.oam_data 3, b.ppu.oam_data 4, b.ppu.oam_data 2,
         b.ppu.oam_addr, b.ppu.cycle, b.ppu.scanline, b.ppu.frame))
      = some (7, 8, 6, 3, 100, 50, 3) := by
  rfl

/-- Witness for C6 at full pulse-1 and triangle volume. -/
theorem C6_mixer_clamped_formula_witness :
    Mixer.mix 15 0 15 0 0 =
      ratClamp (pulse_table_formula (15 + 0) +
        tnd_table_formula (3 * 15 + 2 * 0 + 0) - 1) (-1) 1 :=
  C6_mixer_clamped_formula 15 0 15 0 0 (by norm_num) (by norm_num)

end Nes
